import Mathlib

/-!
Verification of the PF-Management portfolio tracker (src/app.py).

Shallow embedding: the SQLite `prices` table is a `List Snapshot`, the
`positions` table a `List Position` (as read back by `fetch_positions`,
i.e. already ordered by name).  External effects — the yfinance calls of
`fetch_yahoo` and the HTTP request of `fetch_coingecko` — are modelled by
explicit environments whose fields are `Except`-values: `.error e` means
the corresponding Python call raised an exception whose class name is `e`,
`.ok v` means it returned the value `v`.  Python floats are modelled as
rationals; SQLite TEXT `asof` dates (ISO strings, compared
lexicographically, which agrees with chronological order) are modelled as
naturals.  Python `None` for a nullable column is `Option.none`.
-/

set_option autoImplicit false

namespace PFApp

/--
Python run-time values returned by the two price providers.  `fetch_yahoo`
returns a dict, either `\x7b"ok": True, "price": .., "ccy": .., "provider": ..\x7d`
(`okDict`) or `\x7b"ok": False, "reason": ..\x7d` (`errDict`); `fetch_coingecko`
returns either the bare 3-tuple `(px, vs.upper(), "coingecko")` (`triple`)
or `None` (`pyNone`).
-/
inductive PyRet where
  | pyNone
  | okDict (price : ℚ) (ccy : String) (provider : String)
  | errDict (reason : String)
  | triple (price : ℚ) (ccy : String) (provider : String)
  deriving DecidableEq

/-- A row of the `prices` table (the surrogate `id` column is immaterial). -/
structure Snapshot where
  ticker : String
  price : ℚ
  currency : String
  asof : ℕ
  source : String
  deriving DecidableEq

/-- A row of the `positions` table, as a pandas row in `update_prices` /
the Overview tab.  Nullable columns are `Option`s; `name`, `quantity`,
`avg_cost` are NOT NULL in the schema. -/
structure Position where
  id : ℕ
  name : String
  ticker : Option String
  type : Option String
  platform : Option String
  quantity : ℚ
  avg_cost : ℚ
  currency : String
  isin : Option String
  ter : Option ℚ
  purchase_date : Option String
  price_source : Option String
  price_symbol : Option String
  notes : Option String
  deriving DecidableEq

/-- Python truthiness of a float-or-None value: `None` and `0.0` are falsy. -/
def pyTruthyQ : Option ℚ → Bool
  | some x => x ≠ 0
  | none => false

/-- Python `a or b` on float-or-None values. -/
def pyOrQ (a b : Option ℚ) : Option ℚ :=
  if pyTruthyQ a then a else b

/-- Python `a or b` where `a` is a string-or-None and `b` a string:
`None` and the empty string are falsy. -/
def pyStrOr (a : Option String) (b : String) : String :=
  match a with
  | none => b
  | some s => if s = "" then b else s

/-- Python `a or b` on two strings: `""` is falsy. -/
def pyOrS (a b : String) : String :=
  if a = "" then b else a

/-- Python `str.lower()` (the source only feeds it ASCII source names). -/
def pyLower (s : String) : String :=
  ⟨s.data.map Char.toLower⟩

/-- Python `str.upper()` (the source only feeds it ASCII currency codes). -/
def pyUpper (s : String) : String :=
  ⟨s.data.map Char.toUpper⟩

instance {ε α : Type} [DecidableEq ε] [DecidableEq α] : DecidableEq (Except ε α) := fun x y =>
  match x, y with
  | .ok a, .ok b =>
      if h : a = b then isTrue (by rw [h]) else isFalse (by intro hc; cases hc; exact h rfl)
  | .error a, .error b =>
      if h : a = b then isTrue (by rw [h]) else isFalse (by intro hc; cases hc; exact h rfl)
  | .ok _, .error _ => isFalse nofun
  | .error _, .ok _ => isFalse nofun

/-- Result of `t.fast_info` when it does not raise: `none` models a falsy
`fi` (the `if fi:` guard fails); otherwise the values of the three price
keys probed by the `or`-chain and of the `"currency"` key. -/
structure FIData where
  last_price : Option ℚ
  last_close : Option ℚ
  lastPrice : Option ℚ
  currency : Option String
  deriving DecidableEq

/-- Result of `t.history(...)` / `yf.download(...)` when it does not raise:
the `empty` flag of the DataFrame and its `Close` column (`none` entries
are NaN, removed by `.dropna()`). -/
structure HistData where
  empty : Bool
  close : List (Option ℚ)
  deriving DecidableEq

/-- Environment of one `fetch_yahoo` call: the outcome of each external
yfinance interaction.  `.error e` means that interaction raised an
exception with `type(e).__name__ = e`. -/
structure YahooEnv where
  ticker_ctor : Except String Unit
  fast_info : Except String (Option FIData)
  history : Except String HistData
  download : Except String HistData
  info : Except String (Option String)
  deriving DecidableEq

/-- Step 1 of `fetch_yahoo` (the `fast_info` try-block, lines 80-86):
returns `(px, cc, reason)` after the block. -/
def yahoo_step1 (env : YahooEnv) : Option ℚ × Option String × String :=
  match env.fast_info with
  | .error e => (none, none, "[fast_info:" ++ e ++ "] ")
  | .ok none => (none, none, "")
  | .ok (some fi) =>
      (pyOrQ fi.last_price (pyOrQ fi.last_close fi.lastPrice), fi.currency, "")

/-- Step 2 of `fetch_yahoo` (the `history` fallback, lines 88-95), run only
when `px is None`; `iloc[-1]` on the dropna'd `Close` column raises
`IndexError` when that column is all-NaN. -/
def yahoo_step2 (env : YahooEnv) (px : Option ℚ) (reason : String) :
    Option ℚ × String :=
  match px with
  | some p => (some p, reason)
  | none =>
      match env.history with
      | .error e => (none, reason ++ "[history:" ++ e ++ "] ")
      | .ok h =>
          if h.empty then (none, reason)
          else
            match (h.close.filterMap id).getLast? with
            | some c => (some c, reason)
            | none => (none, reason ++ "[history:IndexError] ")

/-- Step 3 of `fetch_yahoo` (the `download` fallback, lines 97-104). -/
def yahoo_step3 (env : YahooEnv) (px : Option ℚ) (reason : String) :
    Option ℚ × String :=
  match px with
  | some p => (some p, reason)
  | none =>
      match env.download with
      | .error e => (none, reason ++ "[download:" ++ e ++ "] ")
      | .ok h =>
          if h.empty then (none, reason)
          else
            match (h.close.filterMap id).getLast? with
            | some c => (some c, reason)
            | none => (none, reason ++ "[download:IndexError] ")

/-- Step 4 of `fetch_yahoo` (currency best effort, lines 106-112): runs
only when `cc is None`; a raising `t.info` is swallowed by `pass`. -/
def yahoo_ccy (env : YahooEnv) (cc : Option String) : Option String :=
  match cc with
  | some c => some c
  | none =>
      match env.info with
      | .error _ => none
      | .ok v => v

/-- Embedding of `fetch_yahoo` (src/app.py lines 73-118).  The outer
try-block turns a raising `yf.Ticker(symbol)` into the
`exception:<name>` failure; otherwise the three price attempts run in
order, each appending a diagnostic tag when it raises, and the final
result is built exactly as on lines 114-116 (note `cc or "EUR"` and
`reason or "no data"` use Python truthiness). -/
def fetch_yahoo (symbol : String) (env : YahooEnv) : PyRet :=
  match env.ticker_ctor with
  | .error e => .errDict ("exception:" ++ e)
  | .ok _ =>
      let s1 := yahoo_step1 env
      let s2 := yahoo_step2 env s1.1 s1.2.2
      let s3 := yahoo_step3 env s2.1 s2.2
      let cc := yahoo_ccy env s1.2.1
      match s3.1 with
      | some p => .okDict p (pyStrOr cc "EUR") "yahoo"
      | none => .errDict (pyOrS s3.2 "no data")

/-- Outcome of the `requests.get` call in `fetch_coingecko` when it does
not raise: final HTTP status, and the outcome of
`float(r.json()[coin_id][vs])` (`.error e` for a JSON parse error, a
missing key, or a non-numeric value). -/
structure CGResp where
  status : ℕ
  value : Except String ℚ
  deriving DecidableEq

/-- Environment of one `fetch_coingecko` call: the `requests.get` outcome,
`.error e` when the request itself raised. -/
abbrev CGEnv := Except String CGResp

/-- Embedding of `fetch_coingecko` (src/app.py lines 120-130).
`r.raise_for_status()` raises exactly for 4xx/5xx statuses; every
exception is caught by the single bare `except` and turned into
`return None`. -/
def fetch_coingecko (coin_id : String) (vs : String) (env : CGEnv) : PyRet :=
  match env with
  | .error _ => .pyNone
  | .ok r =>
      if 400 ≤ r.status ∧ r.status < 600 then .pyNone
      else
        match r.value with
        | .error _ => .pyNone
        | .ok px => .triple px (pyUpper vs) "coingecko"

/-- Embedding of `add_price_snapshot` (src/app.py lines 56-60): a single
INSERT into `prices` with `asof = date.today().isoformat()`, modelled by
the explicit `today` argument. -/
def add_price_snapshot (store : List Snapshot) (ticker : String) (price : ℚ)
    (currency : String) (source : String) (today : ℕ) : List Snapshot :=
  store ++ [⟨ticker, price, currency, today, source⟩]

/-- Number of snapshot rows for a given symbol. -/
def countSym (store : List Snapshot) (t : String) : ℕ :=
  (store.filter fun r => r.ticker == t).length

/-- The SQL aggregate `SELECT MAX(asof) FROM prices GROUP BY ticker`,
for one ticker. -/
def maxAsof (store : List Snapshot) (t : String) : WithBot ℕ :=
  ((store.filter fun r => r.ticker == t).map Snapshot.asof).maximum

/-- Embedding of `latest_prices` (src/app.py lines 62-70): the self-join
keeps exactly the rows whose `(ticker, asof)` matches the per-ticker
maximum `asof` (the SELECT also projects away `id` and `source`, which is
immaterial here). -/
def latest_prices (store : List Snapshot) : List Snapshot :=
  store.filter fun r => decide (maxAsof store r.ticker = (r.asof : WithBot ℕ))

/-- Normalized price source of a position:
`(r.get("price_source") or "manual").lower()` (line 138). -/
def normSrc (p : Position) : String :=
  pyLower (pyStrOr p.price_source "manual")

/-- Feed symbol of a position:
`r.get("price_symbol") or r.get("ticker") or r.get("name")` (line 139). -/
def symOf (p : Position) : String :=
  pyStrOr p.price_symbol (pyStrOr p.ticker p.name)

/-- Snapshot key of a position: `r["ticker"] or r["name"]`
(lines 144 and 152) — Python truthiness, so an empty-string ticker falls
back to the name. -/
def tickerOrName (p : Position) : String :=
  pyStrOr p.ticker p.name

/-- A result row of `update_prices`: `(name, price-or-None, status)`. -/
abbrev Row := String × Option ℚ × String

/-- One iteration of the `update_prices` loop body (lines 137-157) for
position `p`: produces the result row and the store after the iteration.
The catch-all arms of the two inner matches are unreachable
(`fetch_yahoo` only returns dicts, `fetch_coingecko` only a truthy tuple
or falsy `None`). -/
def feed_step (benv : ℕ → YahooEnv) (cenv : ℕ → CGEnv) (today : ℕ)
    (p : Position) (store : List Snapshot) : Row × List Snapshot :=
  if normSrc p = "yahoo" then
    match fetch_yahoo (symOf p) (benv p.id) with
    | .okDict price ccy _ =>
        ((p.name, some price, "yahoo"),
         add_price_snapshot store (tickerOrName p) price ccy "yahoo" today)
    | .errDict reason =>
        ((p.name, none, "kein Feed (" ++ reason ++ ")"), store)
    | _ => ((p.name, none, "kein Feed (None)"), store)
  else if normSrc p = "coingecko" then
    match fetch_coingecko (symOf p) "eur" (cenv p.id) with
    | .triple px cur provider =>
        ((p.name, some px, provider),
         add_price_snapshot store (tickerOrName p) px cur provider today)
    | _ => ((p.name, none, "kein Feed (coingecko)"), store)
  else
    ((p.name, none, "kein Feed (manual)"), store)

/-- The `update_prices` loop over the (already filtered) positions,
threading the `prices` store through the `add_price_snapshot` calls. -/
def update_prices_go (benv : ℕ → YahooEnv) (cenv : ℕ → CGEnv) (today : ℕ) :
    List Position → List Snapshot → List Row × List Snapshot
  | [], store => ([], store)
  | p :: ps, store =>
      let rs := feed_step benv cenv today p store
      let rest := update_prices_go benv cenv today ps rs.2
      (rs.1 :: rest.1, rest.2)

/-- Embedding of `update_prices` (src/app.py lines 132-159).  `positions`
is the result of `fetch_positions()` (name-ordered); the guard
`if selected_ids:` uses Python truthiness, so `None` and the empty list
both skip the id filter. -/
def update_prices (benv : ℕ → YahooEnv) (cenv : ℕ → CGEnv) (today : ℕ)
    (positions : List Position) (selected_ids : Option (List ℕ))
    (store : List Snapshot) : List Row × List Snapshot :=
  let df :=
    match selected_ids with
    | none => positions
    | some l => if l.isEmpty then positions else positions.filter fun p => p.id ∈ l
  update_prices_go benv cenv today df store

/-- Join key of the Overview tab (line 180):
`pos["ticker"].where(pos["ticker"].notna(), pos["name"])` — the ticker
whenever it is non-NULL (even when it is the empty string), else the name. -/
def join_key (ticker : Option String) (name : String) : String :=
  match ticker with
  | none => name
  | some t => t

/-- Modelled from the claim (the spec's words): the join key is the
position's ticker when the ticker is non-empty and the position's name
otherwise.  Stated only to be compared with `join_key` above. -/
def join_key_spec (ticker : Option String) (name : String) : String :=
  match ticker with
  | none => name
  | some t => if t = "" then name else t

/-- The matching predicate of the Overview merge (line 181):
a latest-price row is joined to a position exactly when its ticker column
equals the position's join key. -/
def snapMatches (s : Snapshot) (ticker : Option String) (name : String) : Bool :=
  s.ticker == join_key ticker name

/-- NA-propagating subtraction on pandas float cells (`none` = NaN/NA). -/
def subNA : Option ℚ → Option ℚ → Option ℚ
  | some a, some b => some (a - b)
  | _, _ => none

/-- NA-propagating division under `mode.use_inf_as_na` (line 190): a zero
divisor produces ±inf or NaN, which that option turns into NA. -/
def divNA : Option ℚ → Option ℚ → Option ℚ
  | some a, some b => if b = 0 then none else some (a / b)
  | _, _ => none

/-- Pandas `.fillna(0)` on one cell. -/
def fillna0 (a : Option ℚ) : ℚ :=
  a.getD 0

/-- Pandas `.round(4)` on one cell (exact-midpoint ties are immaterial to
every claim below). -/
def round4 (q : ℚ) : ℚ :=
  (round (q * 10000) : ℤ) / 10000

/-- The `Gewinn %` cell of the Overview tab (lines 190-192):
`((price - avg_cost) / avg_cost)` under `use_inf_as_na`, then
`.fillna(0).round(4)`. -/
def gewinnPct (price avg_cost : Option ℚ) : ℚ :=
  round4 (fillna0 (divNA (subNA price avg_cost) avg_cost))

/-- Modelled from the claim (the spec's words): a fetch result is
contract-shaped when it is an `ok: True` dict carrying price, currency and
provider, or an `ok: False` dict carrying a reason. -/
def fetch_contract_shaped : PyRet → Bool
  | .okDict _ _ _ => true
  | .errDict _ => true
  | _ => false

/-! Concrete inputs used by witnesses and counterexamples. -/

/-- Yahoo environment where all three attempts fail without raising:
falsy `fast_info`, empty history, empty download. -/
def yEnvND : YahooEnv := ⟨.ok (), .ok none, .ok ⟨true, []⟩, .ok ⟨true, []⟩, .ok none⟩

/-- Yahoo environment where all three attempts raise. -/
def yEnvRaises : YahooEnv :=
  ⟨.ok (), .error "JSONDecodeError", .error "RuntimeError", .error "HTTPError", .ok none⟩

/-- Yahoo environment where exactly one attempt raises: fast_info raises,
history and download both come back empty. -/
def yEnvMixed : YahooEnv :=
  ⟨.ok (), .error "JSONDecodeError", .ok ⟨true, []⟩, .ok ⟨true, []⟩, .ok none⟩

/-- Yahoo environment of the spec scenario: the quote lookup and the
history fallback raise, the bulk download returns close 55.0. -/
def yEnvDl55 : YahooEnv :=
  ⟨.ok (), .error "JSONDecodeError", .error "RuntimeError", .ok ⟨false, [some 55]⟩, .ok none⟩

/-- Crypto environment: the HTTP call came back with status 500. -/
def cgEnv500 : CGEnv := .ok ⟨500, .ok 1⟩

/-- Crypto environment: final status 302 with a body that parses to 5.0. -/
def cgEnv302 : CGEnv := .ok ⟨302, .ok 5⟩

/-- A yahoo-sourced position. -/
def posEq : Position :=
  ⟨1, "ACME Corp", some "ACM", none, none, 5, 100, "EUR", none, none, none,
   some "yahoo", some "ACM", none⟩

/-- A manual-sourced position. -/
def posMan : Position :=
  ⟨2, "Gold Bar", none, none, none, 1, 50, "EUR", none, none, none,
   some "manual", none, none⟩

/-- A coingecko-sourced position. -/
def posCg : Position :=
  ⟨3, "Bitcoin", some "BTC", none, none, 1, 20000, "EUR", none, none, none,
   some "coingecko", some "bitcoin", none⟩

/-- A position whose ticker is the empty string (as saved by the UI when
the ticker text field is left blank). -/
def acmePos : Position :=
  ⟨7, "ACME", some "", none, none, 5, 100, "EUR", none, none, none,
   some "yahoo", none, none⟩

/-- A two-snapshot store for the same symbol on days 5 and 7. -/
def storeW : List Snapshot :=
  [⟨"AAA", 1, "EUR", 5, "manual"⟩, ⟨"AAA", 2, "EUR", 7, "yahoo"⟩]

/-- Per-position yahoo environments: every fetch finds no data. -/
def benv0 : ℕ → YahooEnv := fun _ => yEnvND

/-- Per-position crypto environments: every HTTP call returns 500. -/
def cenv0 : ℕ → CGEnv := fun _ => cgEnv500

/-- Per-position crypto environments: every HTTP call returns 302 / body 5. -/
def cenv302 : ℕ → CGEnv := fun _ => cgEnv302

/-! Helper lemmas about the batch-update loop. -/

lemma feed_step_store_extends (benv : ℕ → YahooEnv) (cenv : ℕ → CGEnv) (today : ℕ)
    (p : Position) (store : List Snapshot) :
    ∃ ap, (feed_step benv cenv today p store).2 = store ++ ap := by
  unfold feed_step
  split
  · split <;> first | exact ⟨_, rfl⟩ | exact ⟨[], by simp⟩
  · split
    · split <;> first | exact ⟨_, rfl⟩ | exact ⟨[], by simp⟩
    · exact ⟨[], by simp⟩

lemma update_prices_go_store_extends (benv : ℕ → YahooEnv) (cenv : ℕ → CGEnv) (today : ℕ)
    (ps : List Position) (store : List Snapshot) :
    ∃ ap, (update_prices_go benv cenv today ps store).2 = store ++ ap := by
  induction ps generalizing store with
  | nil => exact ⟨[], by simp [update_prices_go]⟩
  | cons p ps ih =>
      obtain ⟨ap0, h0⟩ := feed_step_store_extends benv cenv today p store
      obtain ⟨ap1, h1⟩ := ih (feed_step benv cenv today p store).2
      exact ⟨ap0 ++ ap1, by simp only [update_prices_go]; rw [h1, h0, List.append_assoc]⟩

lemma update_prices_go_append (benv : ℕ → YahooEnv) (cenv : ℕ → CGEnv) (today : ℕ)
    (A B : List Position) (store : List Snapshot) :
    update_prices_go benv cenv today (A ++ B) store =
      ((update_prices_go benv cenv today A store).1
         ++ (update_prices_go benv cenv today B (update_prices_go benv cenv today A store).2).1,
       (update_prices_go benv cenv today B (update_prices_go benv cenv today A store).2).2) := by
  induction A generalizing store with
  | nil => simp [update_prices_go]
  | cons p ps ih => simp [update_prices_go, ih]

lemma update_prices_go_length (benv : ℕ → YahooEnv) (cenv : ℕ → CGEnv) (today : ℕ)
    (ps : List Position) (store : List Snapshot) :
    (update_prices_go benv cenv today ps store).1.length = ps.length := by
  induction ps generalizing store with
  | nil => simp [update_prices_go]
  | cons p ps ih => simp [update_prices_go, ih]

/-! Claim theorems. -/

/--
C1 (amended): neither fetcher propagates an exception; each always returns a
definite Python value.  The equity fetch always returns one of the two
contract dicts (ok: True with price/ccy/provider, or ok: False with reason);
the crypto fetch, however, returns a bare (price, currency, provider) tuple
on success and Python None — carrying no reason string — on failure, which
is where the claim as stated fails (see the counterexample).
-/
theorem fetch_never_throws :
    (∀ (sym : String) (env : YahooEnv),
        fetch_contract_shaped (fetch_yahoo sym env) = true)
    ∧ (∀ (coin vs : String) (cenv : CGEnv),
        fetch_coingecko coin vs cenv = .pyNone
        ∨ ∃ px c pr, fetch_coingecko coin vs cenv = .triple px c pr) := by
  constructor
  · intro sym env
    cases htc : env.ticker_ctor with
    | error e => simp [fetch_yahoo, htc, fetch_contract_shaped]
    | ok u =>
        cases h3 : (yahoo_step3 env
            (yahoo_step2 env (yahoo_step1 env).1 (yahoo_step1 env).2.2).1
            (yahoo_step2 env (yahoo_step1 env).1 (yahoo_step1 env).2.2).2).1 with
        | some p => simp [fetch_yahoo, htc, h3, fetch_contract_shaped]
        | none => simp [fetch_yahoo, htc, h3, fetch_contract_shaped]
  · intro coin vs cenv
    cases cenv with
    | error e => exact Or.inl rfl
    | ok r =>
        by_cases hc : 400 ≤ r.status ∧ r.status < 600
        · exact Or.inl (by simp [fetch_coingecko, hc])
        · cases hv : r.value with
          | error e => exact Or.inl (by simp [fetch_coingecko, hc, hv])
          | ok px =>
              exact Or.inr ⟨px, pyUpper vs, "coingecko", by simp [fetch_coingecko, hc, hv]⟩

/--
C1 counterexample: on an HTTP-500 environment the crypto fetch returns the
bare None, which is not an ok: False / reason failure dict — so the claim
that every fetch returns one of the two contract shapes is false for the
crypto fetch.
-/
theorem fetch_crypto_failure_shape_cex :
    fetch_coingecko "bitcoin" "eur" cgEnv500 = .pyNone
    ∧ fetch_contract_shaped (fetch_coingecko "bitcoin" "eur" cgEnv500) = false := by
  decide

/--
C4: appending a snapshot is purely additive — the call appends exactly one
row (whose as-of is the current date) at the end of the table, the total and
per-symbol counts grow by one, the existing rows are untouched, and the only
other operation that writes the table, the batch update, also only ever
appends rows.
-/
theorem add_price_snapshot_additive (store : List Snapshot) (t : String) (p : ℚ)
    (c s : String) (today : ℕ) (positions : List Position)
    (sel : Option (List ℕ)) (benv : ℕ → YahooEnv) (cenv : ℕ → CGEnv) :
    add_price_snapshot store t p c s today = store ++ [⟨t, p, c, today, s⟩]
    ∧ (add_price_snapshot store t p c s today).length = store.length + 1
    ∧ countSym (add_price_snapshot store t p c s today) t = countSym store t + 1
    ∧ ∃ appended, (update_prices benv cenv today positions sel store).2 = store ++ appended := by
  refine ⟨rfl, by simp [add_price_snapshot], ?_, ?_⟩
  · simp [countSym, add_price_snapshot, List.filter_append]
  · unfold update_prices
    exact update_prices_go_store_extends benv cenv today _ store

/--
C8: the Gewinn % cell is exactly 0 — not NaN or infinity, which the ℚ-valued
model cannot even produce, the inf/NaN cells being turned into NA by
`use_inf_as_na` and then filled with 0 — whenever the average cost is 0 or
the latest price is absent.
-/
theorem gewinnPct_zero_when_no_basis (price avg : Option ℚ)
    (h : avg = some 0 ∨ price = none) : gewinnPct price avg = 0 := by
  rcases h with h | h <;> subst h
  · cases price <;> simp [gewinnPct, subNA, divNA, fillna0, round4]
  · simp [gewinnPct, subNA, divNA, fillna0, round4]

theorem gewinnPct_zero_when_no_basis_witness :
    ((some (0 : ℚ) : Option ℚ) = some 0 ∨ (some (120 : ℚ) : Option ℚ) = none)
    ∧ gewinnPct (some 120) (some 0) = 0 :=
  ⟨Or.inl rfl, gewinnPct_zero_when_no_basis (some 120) (some 0) (Or.inl rfl)⟩

/--
C9 (amended): the Overview join key is the position's ticker whenever the
ticker is non-NULL — including when it is the empty string — and the name
only when the ticker is NULL; a latest-price row is matched to a position
exactly when its symbol equals that key.  (The snapshot-write key of the
fetch path, by contrast, treats the empty string as absent, so the two key
computations disagree on empty-string tickers — the original claim's
"non-empty" reading fails, see the counterexample.)
-/
theorem join_key_semantics (tk : Option String) (name : String) (s : Snapshot) :
    join_key none name = name
    ∧ (∀ t, join_key (some t) name = t)
    ∧ (snapMatches s tk name = true ↔ s.ticker = join_key tk name)
    ∧ join_key (some "") name = ""
    ∧ pyStrOr (some "") name = name := by
  refine ⟨rfl, fun t => rfl, ?_, rfl, by simp [pyStrOr]⟩
  simp [snapMatches]

/--
C9 counterexample: for a position with the empty string as ticker and name
"ACME", the claim's key would be "ACME", but the code joins on the empty
string; the snapshot the fetch path writes for that position (under symbol
"ACME") therefore does not match the position in the Overview join.
-/
theorem join_key_empty_ticker_cex :
    join_key (some "") "ACME" = ""
    ∧ join_key_spec (some "") "ACME" = "ACME"
    ∧ tickerOrName acmePos = "ACME"
    ∧ snapMatches ⟨"ACME", 100, "EUR", 0, "yahoo"⟩ (some "") "ACME" = false := by
  decide

/--
C10: a batch fetch invoked with the explicitly empty id list behaves exactly
as one invoked with no id filter — the Python guard tests truthiness, and
the empty list is falsy — and it produces one result row per stored
position.
-/
theorem update_prices_empty_filter (benv : ℕ → YahooEnv) (cenv : ℕ → CGEnv)
    (today : ℕ) (positions : List Position) (store : List Snapshot) :
    update_prices benv cenv today positions (some []) store
      = update_prices benv cenv today positions none store
    ∧ (update_prices benv cenv today positions (some []) store).1.length
      = positions.length := by
  constructor
  · rfl
  · unfold update_prices
    simpa using update_prices_go_length benv cenv today positions store

/--
C2: the equity/fund fetch tries its three price sources in the fixed order
fast-quote, recent-history close, one-day bulk download, taking the first
available price: a price from fast_info is used regardless of the later
steps, the history close is used when fast_info yielded none, and when the
first two attempts throw and the bulk download's close is 55.0 the result
is a success with price 55.0 from provider "yahoo".
-/
theorem fetch_yahoo_fallback_order :
    (∀ (sym : String) (env : YahooEnv) (fi : FIData) (p : ℚ),
        env.ticker_ctor = .ok () → env.fast_info = .ok (some fi) →
        pyOrQ fi.last_price (pyOrQ fi.last_close fi.lastPrice) = some p →
        ∃ c, fetch_yahoo sym env = .okDict p c "yahoo")
    ∧ (∀ (sym : String) (env : YahooEnv) (e1 : String) (h : HistData) (p : ℚ),
        env.ticker_ctor = .ok () → env.fast_info = .error e1 →
        env.history = .ok h → h.empty = false →
        (h.close.filterMap id).getLast? = some p →
        ∃ c, fetch_yahoo sym env = .okDict p c "yahoo")
    ∧ (∀ (sym : String) (env : YahooEnv) (e1 e2 : String) (d : HistData),
        env.ticker_ctor = .ok () → env.fast_info = .error e1 →
        env.history = .error e2 → env.download = .ok d → d.empty = false →
        (d.close.filterMap id).getLast? = some 55 →
        ∃ c, fetch_yahoo sym env = .okDict 55 c "yahoo") := by
  refine ⟨?_, ?_, ?_⟩
  · intro sym env fi p htc hfi hpx
    exact ⟨pyStrOr (yahoo_ccy env fi.currency) "EUR",
      by simp [fetch_yahoo, htc, yahoo_step1, hfi, hpx, yahoo_step2, yahoo_step3]⟩
  · intro sym env e1 h p htc hfi hh hemp hlast
    exact ⟨pyStrOr (yahoo_ccy env none) "EUR",
      by simp [fetch_yahoo, htc, yahoo_step1, hfi, yahoo_step2, hh, hemp, hlast,
        yahoo_step3]⟩
  · intro sym env e1 e2 d htc hfi hh hd hemp hlast
    exact ⟨pyStrOr (yahoo_ccy env none) "EUR",
      by simp [fetch_yahoo, htc, yahoo_step1, hfi, yahoo_step2, hh, yahoo_step3,
        hd, hemp, hlast]⟩

theorem fetch_yahoo_fallback_order_witness :
    yEnvDl55.fast_info = .error "JSONDecodeError"
    ∧ ∃ c, fetch_yahoo "ACM" yEnvDl55 = .okDict 55 c "yahoo" :=
  ⟨rfl, fetch_yahoo_fallback_order.2.2 "ACM" yEnvDl55 "JSONDecodeError" "RuntimeError"
    ⟨false, [some 55]⟩ rfl rfl rfl rfl rfl rfl⟩

/--
C7 (amended): for every combination of failure modes of the three attempts
(raising for a tag, or finding no data for no tag — falsy or priceless
fast_info; empty history or download; an all-NaN Close column, whose
iloc[-1] raises IndexError inside the same try-block), the failure reason
is the concatenation t1 ++ t2 ++ t3 of the recorded tags whenever at least
one attempt raised (the concatenation is non-empty exactly then), and the
fixed string "no data" when none raised — which is where the claim as
stated fails, see the counterexample.
-/
theorem fetch_yahoo_reason_tags (sym : String) (env : YahooEnv) (t1 t2 t3 : String)
    (htc : env.ticker_ctor = .ok ())
    (h1 : (∃ e, env.fast_info = .error e ∧ t1 = "[fast_info:" ++ e ++ "] ")
      ∨ (env.fast_info = .ok none ∧ t1 = "")
      ∨ (∃ fi, env.fast_info = .ok (some fi)
          ∧ pyOrQ fi.last_price (pyOrQ fi.last_close fi.lastPrice) = none ∧ t1 = ""))
    (h2 : (∃ e, env.history = .error e ∧ t2 = "[history:" ++ e ++ "] ")
      ∨ (∃ h, env.history = .ok h ∧ h.empty = true ∧ t2 = "")
      ∨ (∃ h, env.history = .ok h ∧ h.empty = false
          ∧ (h.close.filterMap id).getLast? = none ∧ t2 = "[history:IndexError] "))
    (h3 : (∃ e, env.download = .error e ∧ t3 = "[download:" ++ e ++ "] ")
      ∨ (∃ d, env.download = .ok d ∧ d.empty = true ∧ t3 = "")
      ∨ (∃ d, env.download = .ok d ∧ d.empty = false
          ∧ (d.close.filterMap id).getLast? = none ∧ t3 = "[download:IndexError] ")) :
    (t1 ++ t2 ++ t3 ≠ "" → fetch_yahoo sym env = .errDict (t1 ++ t2 ++ t3))
    ∧ (t1 ++ t2 ++ t3 = "" → fetch_yahoo sym env = .errDict "no data") := by
  have hs1 : (yahoo_step1 env).1 = none ∧ (yahoo_step1 env).2.2 = t1 := by
    rcases h1 with ⟨e, hfi, ht1⟩ | ⟨hfi, ht1⟩ | ⟨fi, hfi, hpx, ht1⟩ <;> subst ht1
    · simp [yahoo_step1, hfi]
    · simp [yahoo_step1, hfi]
    · simp [yahoo_step1, hfi, hpx]
  have hs2 : ∀ r, yahoo_step2 env none r = (none, r ++ t2) := by
    intro r
    rcases h2 with ⟨e, hh, ht2⟩ | ⟨h, hh, hhe, ht2⟩ | ⟨h, hh, hhe, hlast, ht2⟩ <;> subst ht2
    · simp [yahoo_step2, hh, String.append_assoc]
    · simp [yahoo_step2, hh, hhe, String.append_empty]
    · simp [yahoo_step2, hh, hhe, hlast, String.append_assoc]
  have hs3 : ∀ r, yahoo_step3 env none r = (none, r ++ t3) := by
    intro r
    rcases h3 with ⟨e, hd, ht3⟩ | ⟨d, hd, hde, ht3⟩ | ⟨d, hd, hde, hlast, ht3⟩ <;> subst ht3
    · simp [yahoo_step3, hd, String.append_assoc]
    · simp [yahoo_step3, hd, hde, String.append_empty]
    · simp [yahoo_step3, hd, hde, hlast, String.append_assoc]
  have hfinal : fetch_yahoo sym env = .errDict (pyOrS (t1 ++ t2 ++ t3) "no data") := by
    simp [fetch_yahoo, htc, hs1.1, hs1.2, hs2, hs3]
  constructor
  · intro hne
    rw [hfinal]
    have hps : pyOrS (t1 ++ t2 ++ t3) "no data" = t1 ++ t2 ++ t3 := by
      unfold pyOrS
      rw [if_neg hne]
    rw [hps]
  · intro he
    rw [hfinal, he]
    simp [pyOrS]

theorem fetch_yahoo_reason_tags_witness :
    (("[fast_info:" ++ "JSONDecodeError" ++ "] " ++ "" ++ "" : String) ≠ "")
    ∧ fetch_yahoo "ACM" yEnvMixed
        = .errDict ("[fast_info:" ++ "JSONDecodeError" ++ "] " ++ "" ++ "") :=
  ⟨by decide,
   (fetch_yahoo_reason_tags "ACM" yEnvMixed ("[fast_info:" ++ "JSONDecodeError" ++ "] ") "" ""
      rfl
      (Or.inl ⟨"JSONDecodeError", rfl, rfl⟩)
      (Or.inr (Or.inl ⟨⟨true, []⟩, rfl, rfl, rfl⟩))
      (Or.inr (Or.inl ⟨⟨true, []⟩, rfl, rfl, rfl⟩))).1 (by decide)⟩

/--
C7 counterexample: when all three attempts fail without any of them raising
(falsy fast_info, empty history, empty download) no diagnostic tag is
recorded, and the failure reason is "no data" — not the empty concatenation
of the (zero) recorded tags.
-/
theorem fetch_yahoo_no_data_cex :
    fetch_yahoo "ACM" yEnvND = .errDict "no data" ∧ ("no data" : String) ≠ "" := by
  decide

/--
C5 (amended): for every crypto-feed fetch where the HTTP call raises,
returns a 4xx/5xx status (what raise_for_status actually raises on), or the
response fails to parse, the fetch yields the bare None and the batch row is
the single generic reason "kein Feed (coingecko)" with no snapshot appended.
The original claim's "non-2xx" reading fails: a 3xx final status with a
parseable body is treated as success, see the counterexample.
-/
theorem update_prices_crypto_soft_fail (p : Position) (benv : ℕ → YahooEnv)
    (cenv : ℕ → CGEnv) (today : ℕ) (store : List Snapshot)
    (hsrc : normSrc p = "coingecko")
    (hfail : ∀ r : CGResp, cenv p.id = .ok r →
      (400 ≤ r.status ∧ r.status < 600) ∨ ∃ e, r.value = .error e) :
    fetch_coingecko (symOf p) "eur" (cenv p.id) = .pyNone
    ∧ update_prices benv cenv today [p] none store
      = ([(p.name, none, "kein Feed (coingecko)")], store) := by
  have h1 : fetch_coingecko (symOf p) "eur" (cenv p.id) = .pyNone := by
    cases hce : cenv p.id with
    | error e => simp [fetch_coingecko, hce]
    | ok r =>
        rcases hfail r hce with hs | ⟨e, hv⟩
        · simp [fetch_coingecko, hce, hs]
        · by_cases hc : 400 ≤ r.status ∧ r.status < 600
          · simp [fetch_coingecko, hce, hc]
          · simp [fetch_coingecko, hce, hc, hv]
  refine ⟨h1, ?_⟩
  have hny : ¬ normSrc p = "yahoo" := by rw [hsrc]; decide
  simp [update_prices, update_prices_go, feed_step, hny, hsrc, h1]

theorem update_prices_crypto_soft_fail_witness :
    normSrc posCg = "coingecko"
    ∧ (fetch_coingecko (symOf posCg) "eur" (cenv0 posCg.id) = .pyNone
       ∧ update_prices benv0 cenv0 0 [posCg] none []
         = ([("Bitcoin", none, "kein Feed (coingecko)")], [])) :=
  ⟨by decide, update_prices_crypto_soft_fail posCg benv0 cenv0 0 [] (by decide)
    (fun r hr => by
      injection hr with h
      subst h
      exact Or.inl (by decide))⟩

/--
C5 counterexample: a final HTTP status of 302 — not a 2xx — with a body that
parses to 5.0 does not raise in raise_for_status (which only fires on
4xx/5xx), so the crypto fetch succeeds and the batch appends a snapshot,
contradicting the claim that every non-2xx status yields the generic
failure with no snapshot.
-/
theorem update_prices_crypto_non2xx_cex :
    ¬ (200 ≤ (302 : ℕ) ∧ (302 : ℕ) < 300)
    ∧ update_prices benv0 cenv302 0 [posCg] none []
      = ([("Bitcoin", some 5, "coingecko")], [⟨"BTC", 5, "EUR", 0, "coingecko"⟩]) := by
  decide

/--
C6: in a batch fetch, a position whose normalized source is neither "yahoo"
nor "coingecko" (so "manual" or any unrecognized value) always yields the
row (name, no price, "kein Feed (manual)") and leaves the store untouched
at its step, independently of the surrounding positions and of every feed
environment: the batch over A ++ b :: C decomposes into the batch over A,
the fixed row for b, and the batch over C run on A's resulting store.
-/
theorem update_prices_manual_row (benv : ℕ → YahooEnv) (cenv : ℕ → CGEnv)
    (today : ℕ) (A C : List Position) (b : Position) (store : List Snapshot)
    (hb : normSrc b ≠ "yahoo" ∧ normSrc b ≠ "coingecko") :
    update_prices benv cenv today (A ++ b :: C) none store =
      ((update_prices benv cenv today A none store).1
         ++ (b.name, none, "kein Feed (manual)")
           :: (update_prices benv cenv today C none
                (update_prices benv cenv today A none store).2).1,
       (update_prices benv cenv today C none
          (update_prices benv cenv today A none store).2).2) := by
  have hstep : ∀ s, feed_step benv cenv today b s
      = ((b.name, none, "kein Feed (manual)"), s) := by
    intro s
    unfold feed_step
    rw [if_neg hb.1, if_neg hb.2]
  simp only [update_prices]
  rw [update_prices_go_append]
  simp [update_prices_go, hstep]

theorem update_prices_manual_row_witness :
    (normSrc posMan ≠ "yahoo" ∧ normSrc posMan ≠ "coingecko")
    ∧ update_prices benv0 cenv0 0 ([posEq] ++ posMan :: [posCg]) none [] =
      ((update_prices benv0 cenv0 0 [posEq] none []).1
         ++ ("Gold Bar", none, "kein Feed (manual)")
           :: (update_prices benv0 cenv0 0 [posCg] none
                (update_prices benv0 cenv0 0 [posEq] none []).2).1,
       (update_prices benv0 cenv0 0 [posCg] none
          (update_prices benv0 cenv0 0 [posEq] none []).2).2) :=
  ⟨⟨by decide, by decide⟩,
   update_prices_manual_row benv0 cenv0 0 [posEq] [posCg] posMan []
     ⟨by decide, by decide⟩⟩

/--
C3: for each distinct symbol having at least one snapshot, the latest-price
query keeps exactly the rows whose as-of date is the per-symbol maximum:
some returned row for the symbol dominates every stored row of that symbol,
every returned row of the symbol dominates every stored row of that symbol,
and for a symbol with exactly two snapshots on days D1 < D2 the query
returns precisely the D2 row in either insertion order.
-/
theorem latest_prices_latest (store : List Snapshot) (t : String)
    (hex : ∃ r ∈ store, r.ticker = t) :
    (∃ r ∈ latest_prices store, r.ticker = t
        ∧ ∀ r' ∈ store, r'.ticker = t → r'.asof ≤ r.asof)
    ∧ (∀ r'' ∈ latest_prices store, r''.ticker = t →
        ∀ r' ∈ store, r'.ticker = t → r'.asof ≤ r''.asof)
    ∧ (∀ (p1 p2 : ℚ) (c1 c2 s1 s2 : String) (d1 d2 : ℕ), d1 < d2 →
        latest_prices [⟨t, p1, c1, d1, s1⟩, ⟨t, p2, c2, d2, s2⟩]
          = [⟨t, p2, c2, d2, s2⟩]
        ∧ latest_prices [⟨t, p2, c2, d2, s2⟩, ⟨t, p1, c1, d1, s1⟩]
          = [⟨t, p2, c2, d2, s2⟩]) := by
  obtain ⟨r0, hr0, ht0⟩ := hex
  have hG : r0 ∈ store.filter (fun r => r.ticker == t) :=
    List.mem_filter.mpr ⟨hr0, by simp [ht0]⟩
  have hmapne : (store.filter (fun r => r.ticker == t)).map Snapshot.asof ≠ [] :=
    List.ne_nil_of_mem (List.mem_map_of_mem Snapshot.asof hG)
  have hnb : maxAsof store t ≠ ⊥ := List.maximum_ne_bot_of_ne_nil hmapne
  obtain ⟨m, hm⟩ := WithBot.ne_bot_iff_exists.mp hnb
  have hm' : maxAsof store t = (m : WithBot ℕ) := hm.symm
  obtain ⟨hmmem, hmub⟩ := List.maximum_eq_coe_iff.mp hm'
  obtain ⟨r, hrG, hre⟩ := List.mem_map.mp hmmem
  have hrstore : r ∈ store := (List.mem_filter.mp hrG).1
  have hrt : r.ticker = t := by
    have := (List.mem_filter.mp hrG).2
    simpa using this
  have hub : ∀ r' ∈ store, r'.ticker = t → r'.asof ≤ m := by
    intro r' h1 h2
    exact hmub r'.asof
      (List.mem_map_of_mem Snapshot.asof (List.mem_filter.mpr ⟨h1, by simp [h2]⟩))
  have hrlatest : r ∈ latest_prices store := by
    apply List.mem_filter.mpr
    refine ⟨hrstore, ?_⟩
    simp only [decide_eq_true_eq]
    rw [hrt, hm']
    exact_mod_cast hre.symm
  refine ⟨⟨r, hrlatest, hrt, ?_⟩, ?_, ?_⟩
  · intro r' h1 h2
    have hr'm := hub r' h1 h2
    have hrm : r.asof = m := by exact_mod_cast hre
    omega
  · intro r'' h2 ht'' r' h1 ht'
    have hcond := (List.mem_filter.mp h2).2
    have hcond' : maxAsof store r''.ticker = (r''.asof : WithBot ℕ) := by
      simpa using hcond
    rw [ht'', hm'] at hcond'
    have hm2 : m = r''.asof := by exact_mod_cast hcond'
    have := hub r' h1 ht'
    omega
  · intro p1 p2 c1 c2 s1 s2 d1 d2 hlt
    have hmax : max d1 d2 = d2 := max_eq_right (le_of_lt hlt)
    have hmax' : max d2 d1 = d2 := max_eq_left (le_of_lt hlt)
    have hne : ¬ ((d2 : WithBot ℕ) = (d1 : WithBot ℕ)) := by exact_mod_cast hlt.ne'
    constructor
    · simp only [latest_prices, maxAsof, List.filter_cons, List.maximum_cons,
        List.maximum_singleton, List.maximum_nil, sup_bot_eq, ← WithBot.coe_max,
        hmax, List.filter_nil, List.map_cons, List.map_nil, beq_self_eq_true,
        if_true, decide_eq_true_eq]
      split_ifs with h1 h2 h3 <;>
        first
        | rfl
        | exact absurd h1 hne
        | exact absurd h2 hne
        | exact absurd h3 hne
        | exact absurd rfl h1
        | exact absurd rfl h2
        | exact absurd rfl h3
    · simp only [latest_prices, maxAsof, List.filter_cons, List.maximum_cons,
        List.maximum_singleton, List.maximum_nil, sup_bot_eq, ← WithBot.coe_max,
        hmax', List.filter_nil, List.map_cons, List.map_nil, beq_self_eq_true,
        if_true, decide_eq_true_eq]
      split_ifs with h1 h2 h3 <;>
        first
        | rfl
        | exact absurd h1 hne
        | exact absurd h2 hne
        | exact absurd h3 hne
        | exact absurd rfl h1
        | exact absurd rfl h2
        | exact absurd rfl h3

theorem latest_prices_latest_witness :
    (∃ r ∈ storeW, r.ticker = "AAA")
    ∧ (∃ r ∈ latest_prices storeW, r.ticker = "AAA"
        ∧ ∀ r' ∈ storeW, r'.ticker = "AAA" → r'.asof ≤ r.asof) :=
  ⟨by decide, (latest_prices_latest storeW "AAA" (by decide)).1⟩

end PFApp
